import Mathlib

set_option linter.unusedVariables false

/-
Verification of the Seele javascript-sdk client (src/client, given as
src/unnamed/part_000) against its specification. The client class is
embedded shallowly: the mutable instance fields become a state record,
each method becomes a pure function from the state (and the resolved
results of its network calls, passed as parameters) to an Except value,
where Except.error models a thrown Error and Except.ok the returned
value together with the successor state where relevant. Whether a
network call happened is recorded explicitly, since several claims are
about the presence or absence of fetches.
-/

namespace SeeleSDK

/-- JavaScript primitive values as they flow through the client:
undefined, null, integer numbers and strings. The sequences, account
numbers, chain identifiers and result codes handled by the client are
integers or strings, so integer numbers suffice for the embedding. -/
inductive JSValue where
  | undefined
  | null
  | num (n : Int)
  | str (s : String)
  deriving Repr, DecidableEq

/-- JavaScript truthiness on the modelled values: undefined, null, the
number 0 and the empty string are falsy, everything else is truthy. -/
def JSValue.truthy : JSValue → Bool
  | .undefined => false
  | .null => false
  | .num n => n != 0
  | .str s => s != ""

/-- The JavaScript String() conversion on the modelled values. -/
def JSValue.jsString : JSValue → String
  | .undefined => "undefined"
  | .null => "null"
  | .num n => toString n
  | .str s => s

/-- JavaScript loose equality of a value against one of the broadcast
mode literals, as in the checks of setBroadcastMode. The literals are
non-numeric strings, so only the identical string compares loosely
equal: numbers coerce the literal to NaN, and null or undefined are
loosely equal only to each other. -/
def JSValue.looseEqStr : JSValue → String → Bool
  | .str t, s => t == s
  | _, _ => false

/-- WalletHandle: opaque credential produced by the external signing
library (sig.createWalletFromMnemonic) from a mnemonic, a password, the
fixed bech32 human-readable part and a derivation path. The client only
ever reads its address field. -/
structure Wallet where
  address : String
  deriving Repr, DecidableEq

/-- The mutable instance state of a SeeleClient: node URL, chain ID
(undefined until fetched or set manually), account number override
(stored as a string by setAccountNumber), wallet, and broadcast mode.
The hard submodule created by the constructor is not involved in any
claim and is omitted. -/
structure SeeleClient where
  baseURI : JSValue
  chainID : JSValue
  accNum : Option String
  wallet : Option Wallet
  broadcastMode : String
  deriving Repr, DecidableEq

/-- Constructor of SeeleClient (part_000 lines 39 to 46): throws on a
falsy server value, otherwise starts with broadcast mode sync and with
chainID, wallet and account number override unset. -/
def construct (server : JSValue) : Except String SeeleClient :=
  if !server.truthy then .error "Seele server should not be null"
  else .ok { baseURI := server, chainID := .undefined, accNum := none,
             wallet := none, broadcastMode := "sync" }

/-- initChain (part_000 lines 52 to 58). The node-info query is
abstracted by the network parameter: the value that the lodash get of
data.node_info.network extracts from the resolved response, undefined
when the field is missing. The returned flag records whether the
node-info query was performed. -/
def initChain (c : SeeleClient) (network : JSValue) : SeeleClient × Bool :=
  if !c.chainID.truthy then ({ c with chainID := network }, true)
  else (c, false)

/-- setChainID (part_000 lines 64 to 70): throws on a falsy argument,
otherwise stores the argument verbatim. -/
def setChainID (c : SeeleClient) (chainID : JSValue) :
    Except String SeeleClient :=
  if !chainID.truthy then .error "chainID cannot be undefined"
  else .ok { c with chainID := chainID }

/-- setAccountNumber (part_000 lines 76 to 82): throws on a falsy
argument, otherwise stores the String() conversion of the argument. -/
def setAccountNumber (c : SeeleClient) (accNum : JSValue) :
    Except String SeeleClient :=
  if !accNum.truthy then .error "account number cannot be undefined"
  else .ok { c with accNum := some accNum.jsString }

/-- setBroadcastMode (part_000 lines 88 to 101): throws on a falsy
argument, throws when the argument is loosely unequal to all of async,
sync and block (the Error constructor keeps only its first argument as
the message, hence the trailing space), otherwise stores the String()
conversion of the mode. -/
def setBroadcastMode (c : SeeleClient) (mode : JSValue) :
    Except String SeeleClient :=
  if !mode.truthy then .error "broadcast mode cannot be undefined"
  else if !(mode.looseEqStr "async") && !(mode.looseEqStr "sync")
          && !(mode.looseEqStr "block") then
    .error "invalid broadcast mode "
  else .ok { c with broadcastMode := mode.jsString }

/-- setWallet (part_000 lines 110 to 126): throws on a falsy mnemonic,
otherwise stores the wallet built by the external signing library; that
external call is abstracted by the derived parameter (it receives the
mnemonic, the password, the fixed address human-readable part, and the
derivation path selected by the legacy flag, none of which any claim
depends on). -/
def setWallet (c : SeeleClient) (mnemonic : JSValue) (derived : Wallet) :
    Except String SeeleClient :=
  if !mnemonic.truthy then .error "mnemonic cannot be undefined"
  else .ok { c with wallet := some derived }

/-- Account metadata fetched from the chain for an address by
tx.loadMetaData: the account_number and sequence fields of the response
JSON. -/
structure MetaData where
  account_number : JSValue
  sequence : JSValue
  deriving Repr, DecidableEq

/-- The signing information assembled by prepareSignInfo: chain_id
copies the chainID field of the client verbatim (so it is undefined when
the chainID is unset), account_number and sequence are strings. -/
structure SignInfo where
  chain_id : JSValue
  account_number : String
  sequence : String
  deriving Repr, DecidableEq

/-- prepareSignInfo (part_000 lines 133 to 156). The loadMeta parameter
abstracts tx.loadMetaData as a function from the queried address to the
resolved metadata. The returned flag records whether that metadata fetch
was performed: false on the purely local branch, true otherwise. On the
fetch branch the code reads this.wallet.address, which with no wallet
set is the TypeError of the JavaScript original. -/
def prepareSignInfo (c : SeeleClient) (sequence : JSValue)
    (loadMeta : String → MetaData) : Except String (SignInfo × Bool) :=
  if sequence.truthy && c.accNum.isSome then
    .ok ({ chain_id := c.chainID,
           account_number := c.accNum.getD "",
           sequence := sequence.jsString }, false)
  else
    match c.wallet with
    | none => .error "TypeError: Cannot read property address of undefined"
    | some w =>
      let meta := loadMeta w.address
      .ok ({ chain_id := c.chainID,
             account_number :=
               (match c.accNum with
                | some a => a
                | none => meta.account_number.jsString),
             sequence :=
               (if sequence.truthy then sequence.jsString
                else meta.sequence.jsString) }, true)

/-- Modelled from the spec: msg.cosmos.newMsgSend lives in the msg
module of this repository, which is not under src. Per the spec, a
message is a pure data constructor of a tagged variant, currently only
coin-send, built from the sender address, the recipient and the coins;
the coins argument is carried through opaquely. -/
structure MsgSend where
  from_address : String
  to_address : String
  amount : String
  deriving Repr, DecidableEq

/-- Modelled from the spec: the coin-send message constructor. -/
def newMsgSend (sender recipient coins : String) : MsgSend :=
  { from_address := sender, to_address := recipient, amount := coins }

/-- One coin entry of a fee amount. -/
structure Coin where
  denom : String
  amount : String
  deriving Repr, DecidableEq

/-- Fee: ordered coin amount plus a gas budget string. -/
structure Fee where
  amount : List Coin
  gas : String
  deriving Repr, DecidableEq

/-- DEFAULT_FEE (part_000 line 10): empty amount and gas set to the
String() conversion of the number 300000. -/
def DEFAULT_FEE : Fee := { amount := [], gas := toString 300000 }

/-- Modelled from the spec: msg.cosmos.newStdTx lives in the msg module,
not under src; per the spec a RawTx is the messages plus the fee. -/
structure RawTx where
  msgs : List MsgSend
  fee : Fee
  deriving Repr, DecidableEq

/-- Modelled from the spec: the RawTx envelope constructor. -/
def newStdTx (msgs : List MsgSend) (fee : Fee) : RawTx :=
  { msgs := msgs, fee := fee }

/-- Modelled from the spec: tx.signTx delegates to the external signer;
a SignedTx is determined by the raw transaction, the sign info and the
wallet, with the signature bytes themselves abstracted away. -/
structure SignedTx where
  rawTx : RawTx
  signInfo : SignInfo
  signer : Option Wallet
  deriving Repr, DecidableEq

/-- Modelled from the spec: the external signing step. -/
def signTx (rawTx : RawTx) (signInfo : SignInfo) (w : Option Wallet) :
    SignedTx :=
  { rawTx := rawTx, signInfo := signInfo, signer := w }

/-- The broadcast performed at the end of sendTx, recorded as the
argument triple of tx.broadcastTx: the signed transaction, the node URL
and the broadcast mode taken from the client state. -/
structure BroadcastCall where
  signedTx : SignedTx
  baseURI : JSValue
  mode : String
  deriving Repr, DecidableEq

/-- sendTx (part_000 lines 165 to 170): builds the raw transaction from
the messages and the fee, resolves the sign info (propagating its
failures), signs, and broadcasts with the broadcast mode stored in the
client. -/
def sendTx (c : SeeleClient) (msgs : List MsgSend) (fee : Fee)
    (sequence : JSValue) (loadMeta : String → MetaData) :
    Except String BroadcastCall :=
  match prepareSignInfo c sequence loadMeta with
  | .error e => .error e
  | .ok (signInfo, _) =>
      .ok { signedTx := signTx (newStdTx msgs fee) signInfo c.wallet,
            baseURI := c.baseURI, mode := c.broadcastMode }

/-- One invocation of sendTx, recorded as its argument triple. -/
structure SendTxCall where
  msgs : List MsgSend
  fee : Fee
  sequence : JSValue
  deriving Repr, DecidableEq

/-- transfer (part_000 lines 323 to 326): the list of sendTx invocations
that transfer performs, in order. It builds one coin-send message from
the wallet address to the recipient and passes the singleton message
list, the fee and the sequence to sendTx. Reading this.wallet.address
with no wallet set is the TypeError of the JavaScript original. -/
def transferCalls (c : SeeleClient) (recipient coins : String)
    (fee : Fee) (sequence : JSValue) : Except String (List SendTxCall) :=
  match c.wallet with
  | none => .error "TypeError: Cannot read property address of undefined"
  | some w =>
      .ok [{ msgs := [newMsgSend w.address recipient coins],
             fee := fee, sequence := sequence }]

/-- transfer with its JavaScript default arguments, fee = DEFAULT_FEE
and sequence = null. -/
def transferCallsDefault (c : SeeleClient) (recipient coins : String) :
    Except String (List SendTxCall) :=
  transferCalls c recipient coins DEFAULT_FEE .null

/-- The data object of a tx-by-hash response: its result code (undefined
when the field is missing) and its raw_log. Further payload fields ride
along unchanged and are not modelled separately. -/
structure TxData where
  code : JSValue
  raw_log : JSValue
  deriving Repr, DecidableEq

/-- A resolved tx-by-hash response. -/
structure TxResponse where
  data : TxData
  deriving Repr, DecidableEq

/-- Outcome of the tx-by-hash query that checkTxHash performs through
tx.getTx: either the resolved response or the failure it rejected
with. -/
inductive Lookup where
  | found (res : TxResponse)
  | fail (e : String)
  deriving Repr, DecidableEq

/-- checkTxHash (part_000 lines 233 to 256). When the lookup itself
fails, checkTxHash fails with a message wrapping the cause. When a
response is found and its data.code is truthy, the raised rejection is
immediately caught and printed, so the call still returns the response
data; the second component records that logged report, none when no
rejection was reported. -/
def checkTxHash (lookup : Lookup) : Except String (TxData × Option String) :=
  match lookup with
  | .fail e => .error ("tx not found: " ++ e)
  | .found res =>
      if res.data.code.truthy then
        .ok (res.data,
          some ("tx not accepted by chain: \""
                ++ res.data.raw_log.jsString ++ "\""))
      else .ok (res.data, none)

/-- Concrete metadata fetch used by the concrete instances below:
account number 7 and sequence 9 for every address. -/
def metaSample : String → MetaData :=
  fun _ => { account_number := .num 7, sequence := .num 9 }

/-- A fully configured concrete client. -/
def sampleClient : SeeleClient :=
  { baseURI := .str "http://localhost:1317", chainID := .str "seele-testnet",
    accNum := some "5", wallet := some { address := "seele1sender" },
    broadcastMode := "sync" }

/-- A concrete client whose chainID was never fetched nor set. -/
def clientNoChain : SeeleClient :=
  { baseURI := .str "http://localhost:1317", chainID := .undefined,
    accNum := some "5", wallet := none, broadcastMode := "sync" }

/-- Claim C1 counterexample: a client state with chainID unset on which
prepareSignInfo returns a SignInfo instead of raising — there is no
chainID guard, the chain_id field of the result is simply left
undefined. -/
theorem prepareSignInfo_unset_chainID_counterexample :
    clientNoChain.chainID = JSValue.undefined ∧
    prepareSignInfo clientNoChain (.str "2") metaSample =
      .ok ({ chain_id := .undefined, account_number := "5",
             sequence := "2" }, false) :=
  ⟨rfl, rfl⟩

/-- Claim C1 (amended): prepareSignInfo performs no chainID check. On
every run that returns at all (the purely local branch, or the fetch
branch with a wallet set), the unset chainID is copied verbatim into the
SignInfo, whose chain_id field is then undefined; no error is raised on
account of the unset chainID. -/
theorem prepareSignInfo_copies_unset_chainID (c : SeeleClient)
    (sequence : JSValue) (loadMeta : String → MetaData)
    (hchain : c.chainID = JSValue.undefined)
    (hrun : (sequence.truthy = true ∧ c.accNum.isSome = true)
              ∨ c.wallet.isSome = true) :
    ∃ si fetched, prepareSignInfo c sequence loadMeta = .ok (si, fetched)
      ∧ si.chain_id = JSValue.undefined := by
  unfold prepareSignInfo
  by_cases h : (sequence.truthy && c.accNum.isSome) = true
  · rw [if_pos h]
    exact ⟨_, _, rfl, hchain⟩
  · rw [if_neg h]
    cases hw : c.wallet with
    | none =>
        exfalso
        rcases hrun with ⟨h1, h2⟩ | h3
        · exact h (by simp [h1, h2])
        · rw [hw] at h3
          simp at h3
    | some w =>
        exact ⟨_, _, rfl, hchain⟩

/-- Witness for the amended claim C1 theorem at a concrete client. -/
theorem prepareSignInfo_copies_unset_chainID_witness :
    ∃ si fetched,
      prepareSignInfo clientNoChain (.str "2") metaSample = .ok (si, fetched)
        ∧ si.chain_id = JSValue.undefined :=
  prepareSignInfo_copies_unset_chainID clientNoChain (.str "2") metaSample
    rfl (Or.inl ⟨rfl, rfl⟩)

/-- Claim C2: with a truthy manual sequence supplied and an account
number override set, prepareSignInfo performs no metadata fetch (the
flag is false and the result does not depend on loadMeta) and returns
the SignInfo built from local state: the client chainID, the stored
override string, and the String() conversion of the supplied
sequence. -/
theorem prepareSignInfo_manual_local (c : SeeleClient) (sequence : JSValue)
    (loadMeta : String → MetaData) (a : String)
    (hseq : sequence.truthy = true) (hacc : c.accNum = some a) :
    prepareSignInfo c sequence loadMeta =
      .ok ({ chain_id := c.chainID, account_number := a,
             sequence := sequence.jsString }, false) := by
  simp [prepareSignInfo, hseq, hacc]

/-- Witness for the claim C2 theorem at a concrete client. -/
theorem prepareSignInfo_manual_local_witness :
    prepareSignInfo sampleClient (.str "2") metaSample =
      .ok ({ chain_id := .str "seele-testnet", account_number := "5",
             sequence := "2" }, false) :=
  prepareSignInfo_manual_local sampleClient (.str "2") metaSample "5" rfl rfl

/-- Claim C3: whenever prepareSignInfo takes the fetch branch (no truthy
manual sequence together with an override) with a wallet set, it fetches
the metadata for the wallet address and merges field by field: the
account_number of the result is the override when one is set and the
fetched account number otherwise, the sequence is the supplied sequence
when truthy and the fetched sequence otherwise, each field falling back
independently of the other. -/
theorem prepareSignInfo_merge_fieldwise (c : SeeleClient)
    (sequence : JSValue) (loadMeta : String → MetaData) (w : Wallet)
    (hw : c.wallet = some w)
    (hnot : ¬(sequence.truthy = true ∧ c.accNum.isSome = true)) :
    ∃ si, prepareSignInfo c sequence loadMeta = .ok (si, true)
      ∧ si.chain_id = c.chainID
      ∧ (∀ a, c.accNum = some a → si.account_number = a)
      ∧ (c.accNum = none →
          si.account_number = (loadMeta w.address).account_number.jsString)
      ∧ (sequence.truthy = true → si.sequence = sequence.jsString)
      ∧ (sequence.truthy = false →
          si.sequence = (loadMeta w.address).sequence.jsString) := by
  have h : (sequence.truthy && c.accNum.isSome) = false := by
    cases hb : (sequence.truthy && c.accNum.isSome)
    · rfl
    · exact absurd (by simpa using hb) hnot
  refine ⟨{ chain_id := c.chainID,
            account_number := (match c.accNum with
              | some a => a
              | none => (loadMeta w.address).account_number.jsString),
            sequence := (if sequence.truthy then sequence.jsString
              else (loadMeta w.address).sequence.jsString) },
          ?_, rfl, ?_, ?_, ?_, ?_⟩
  · unfold prepareSignInfo
    rw [h, hw]
    simp
  · intro a ha
    simp [ha]
  · intro ha
    simp [ha]
  · intro hs
    simp [hs]
  · intro hs
    simp [hs]

/-- Witness for the claim C3 theorem: only the account number override
is set, the sequence argument is null, so the fetch happens and the
sequence comes from the fetched metadata while the account number stays
the override. -/
theorem prepareSignInfo_merge_fieldwise_witness :
    ∃ si, prepareSignInfo sampleClient .null metaSample = .ok (si, true)
      ∧ si.chain_id = sampleClient.chainID
      ∧ (∀ a, sampleClient.accNum = some a → si.account_number = a)
      ∧ (sampleClient.accNum = none →
          si.account_number =
            (metaSample "seele1sender").account_number.jsString)
      ∧ (JSValue.truthy .null = true → si.sequence = JSValue.jsString .null)
      ∧ (JSValue.truthy .null = false →
          si.sequence = (metaSample "seele1sender").sequence.jsString) :=
  prepareSignInfo_merge_fieldwise sampleClient .null metaSample
    { address := "seele1sender" } rfl (by simp [JSValue.truthy])

/-- Claim C9: a falsy supplied sequence (the number 0, null, or the
empty string) is treated as absent: even with the account number
override set, prepareSignInfo performs the metadata fetch and the
resulting sequence is the fetched one, not the supplied one; and
transfer passes its default sequence null through to sendTx, so a
transfer without an explicit sequence always reaches prepareSignInfo
with a falsy sequence. -/
theorem prepareSignInfo_falsy_sequence_fetches (c : SeeleClient)
    (sequence : JSValue) (loadMeta : String → MetaData) (w : Wallet)
    (a : String) (hw : c.wallet = some w) (hacc : c.accNum = some a)
    (hfalsy : sequence = .num 0 ∨ sequence = .null ∨ sequence = .str "") :
    prepareSignInfo c sequence loadMeta =
      .ok ({ chain_id := c.chainID, account_number := a,
             sequence := (loadMeta w.address).sequence.jsString }, true)
    ∧ (∀ recipient coins, transferCallsDefault c recipient coins =
        .ok [{ msgs := [newMsgSend w.address recipient coins],
               fee := DEFAULT_FEE, sequence := .null }]) := by
  have hs : sequence.truthy = false := by
    rcases hfalsy with rfl | rfl | rfl <;> rfl
  constructor
  · unfold prepareSignInfo
    rw [hs, hw]
    simp [hacc]
  · intro recipient coins
    unfold transferCallsDefault transferCalls
    rw [hw]

/-- Witness for the claim C9 theorem at a concrete client, with the
sequence argument 0. -/
theorem prepareSignInfo_falsy_sequence_fetches_witness :
    prepareSignInfo sampleClient (.num 0) metaSample =
      .ok ({ chain_id := sampleClient.chainID, account_number := "5",
             sequence := (metaSample "seele1sender").sequence.jsString },
           true)
    ∧ (∀ recipient coins, transferCallsDefault sampleClient recipient coins =
        .ok [{ msgs := [newMsgSend "seele1sender" recipient coins],
               fee := DEFAULT_FEE, sequence := .null }]) :=
  prepareSignInfo_falsy_sequence_fetches sampleClient (.num 0) metaSample
    { address := "seele1sender" } "5" rfl rfl (Or.inl rfl)

/-- Claim C4: checkTxHash returns the response data with no rejection
report when the result code of the found transaction is 0; with a
nonzero result code it still returns the response data while recording
the rejection report non-fatally (the call does not fail); and when the
lookup itself fails it fails with a message wrapping the underlying
cause. -/
theorem checkTxHash_spec (res : TxResponse) (n : Int) (e : String) :
    (res.data.code = .num 0 → checkTxHash (.found res) = .ok (res.data, none))
    ∧ (res.data.code = .num n → n ≠ 0 →
        ∃ report, checkTxHash (.found res) = .ok (res.data, some report))
    ∧ checkTxHash (.fail e) = .error ("tx not found: " ++ e) := by
  refine ⟨?_, ?_, rfl⟩
  · intro h0
    simp [checkTxHash, h0, JSValue.truthy]
  · intro hn hne
    have ht : res.data.code.truthy = true := by
      rw [hn]
      simp [JSValue.truthy, hne]
    exact ⟨"tx not accepted by chain: \"" ++ res.data.raw_log.jsString
             ++ "\"",
           by simp [checkTxHash, ht]⟩

/-- Witness for the claim C4 theorem at a concrete rejected response and
a concrete lookup failure. -/
theorem checkTxHash_spec_witness :
    (∃ report,
      checkTxHash (.found { data := { code := .num 4,
                                      raw_log := .str "out of gas" } }) =
        .ok ({ code := .num 4, raw_log := .str "out of gas" }, some report))
    ∧ checkTxHash (.fail "Error: timeout") =
        .error ("tx not found: " ++ "Error: timeout") :=
  ⟨(checkTxHash_spec { data := { code := .num 4,
                                 raw_log := .str "out of gas" } } 4
      "Error: timeout").2.1 rfl (by decide),
   (checkTxHash_spec { data := { code := .num 4,
                                 raw_log := .str "out of gas" } } 4
      "Error: timeout").2.2⟩

/-- Claim C5: every empty or undefined input to the constructor and to
the four setters is rejected with the corresponding configuration error
message. The setters are pure state transformers returning either the
error or the successor state, and on the error branch no successor state
is produced, so a failing call leaves the prior client state c
unchanged; in the source every throw likewise precedes every field
assignment. -/
theorem config_guards_reject_empty (c : SeeleClient) (v : JSValue)
    (d : Wallet) (hv : v = .undefined ∨ v = .str "") :
    construct v = .error "Seele server should not be null"
    ∧ setChainID c v = .error "chainID cannot be undefined"
    ∧ setAccountNumber c v = .error "account number cannot be undefined"
    ∧ setBroadcastMode c v = .error "broadcast mode cannot be undefined"
    ∧ setWallet c v d = .error "mnemonic cannot be undefined" := by
  rcases hv with rfl | rfl
  · exact ⟨rfl, rfl, rfl, rfl, rfl⟩
  · exact ⟨rfl, rfl, rfl, rfl, rfl⟩

/-- Witness for the claim C5 theorem at a concrete client with the
undefined input. -/
theorem config_guards_reject_empty_witness :
    construct .undefined = .error "Seele server should not be null"
    ∧ setChainID sampleClient .undefined =
        .error "chainID cannot be undefined"
    ∧ setAccountNumber sampleClient .undefined =
        .error "account number cannot be undefined"
    ∧ setBroadcastMode sampleClient .undefined =
        .error "broadcast mode cannot be undefined"
    ∧ setWallet sampleClient .undefined { address := "seele1sender" } =
        .error "mnemonic cannot be undefined" :=
  config_guards_reject_empty sampleClient .undefined
    { address := "seele1sender" } (Or.inl rfl)

/-- Claim C6: setBroadcastMode succeeds exactly on the three strings
async, sync and block, storing the given mode; on every other value it
fails (with one of the two guard errors), and on failure no successor
state is produced, so the stored broadcast mode is unchanged. -/
theorem setBroadcastMode_exact (c : SeeleClient) (v : JSValue) :
    ((v = .str "async" ∨ v = .str "sync" ∨ v = .str "block") →
      setBroadcastMode c v = .ok { c with broadcastMode := v.jsString })
    ∧ (¬(v = .str "async" ∨ v = .str "sync" ∨ v = .str "block") →
        ∃ msg, setBroadcastMode c v = .error msg) := by
  constructor
  · rintro (rfl | rfl | rfl) <;> rfl
  · intro hne
    cases v with
    | undefined => exact ⟨_, rfl⟩
    | null => exact ⟨_, rfl⟩
    | num n =>
        by_cases h0 : n = 0
        · subst h0
          exact ⟨_, rfl⟩
        · refine ⟨"invalid broadcast mode ", ?_⟩
          simp [setBroadcastMode, JSValue.truthy, JSValue.looseEqStr, h0]
    | str s =>
        have h1 : s ≠ "async" := fun h => hne (Or.inl (by rw [h]))
        have h2 : s ≠ "sync" := fun h => hne (Or.inr (Or.inl (by rw [h])))
        have h3 : s ≠ "block" :=
          fun h => hne (Or.inr (Or.inr (by rw [h])))
        by_cases hs : s = ""
        · subst hs
          exact ⟨_, rfl⟩
        · refine ⟨"invalid broadcast mode ", ?_⟩
          simp [setBroadcastMode, JSValue.truthy, JSValue.looseEqStr,
                hs, h1, h2, h3]

/-- Witness for the claim C6 theorem: the accepted mode block is stored
on a concrete client. -/
theorem setBroadcastMode_exact_witness :
    setBroadcastMode sampleClient (.str "block") =
      .ok { sampleClient with
              broadcastMode := JSValue.jsString (.str "block") } :=
  (setBroadcastMode_exact sampleClient (.str "block")).1 (Or.inr (Or.inr rfl))

/-- A concrete freshly constructed client, before any chain ID is known. -/
def clientFresh : SeeleClient :=
  { baseURI := .str "http://localhost:1317", chainID := .undefined,
    accNum := none, wallet := none, broadcastMode := "sync" }

/-- Claim C7 counterexample: when the node-info response lacks the
network field, the extracted value is undefined, the chainID stays unset
after the first call, and both of two successive initChain calls perform
a node-info query — two calls are not limited to at most one query. -/
theorem initChain_two_queries_counterexample :
    (initChain clientFresh .undefined).2 = true
    ∧ (initChain (initChain clientFresh .undefined).1 .undefined).2
        = true :=
  ⟨rfl, rfl⟩

/-- Claim C7 (amended): initChain performs no query and returns the
client unchanged when the chainID is already truthy (fetched or manually
overridden); and when the network identifier extracted by the first call
is truthy, the second of two successive calls performs no query, so two
calls perform at most one query. When a query resolves to a response
with a missing or empty network field the chainID stays unset and a
later call queries again. -/
theorem initChain_idempotent_on_truthy (c : SeeleClient)
    (n1 n2 : JSValue) :
    (c.chainID.truthy = true → initChain c n1 = (c, false))
    ∧ (n1.truthy = true →
        (initChain (initChain c n1).1 n2).2 = false) := by
  constructor
  · intro h
    unfold initChain
    rw [h]
    rfl
  · intro h1
    unfold initChain
    cases hb : c.chainID.truthy
    · simp [h1]
    · simp [hb]

/-- Witness for the amended claim C7 theorem: a client with its chainID
already set performs no query, and a fresh client whose first query
resolves to a truthy network identifier performs no query on the second
call. -/
theorem initChain_idempotent_on_truthy_witness :
    initChain sampleClient (.str "other") = (sampleClient, false)
    ∧ (initChain (initChain clientFresh (.str "seele-1")).1 .null).2
        = false :=
  ⟨(initChain_idempotent_on_truthy sampleClient (.str "other") .null).1 rfl,
   (initChain_idempotent_on_truthy clientFresh (.str "seele-1") .null).2 rfl⟩

/-- Claim C8: transfer performs exactly one sendTx invocation (the call
list is a singleton); its message list holds exactly one coin-send
message whose sender is the wallet address of the client and whose
recipient and coins are the given arguments; the fee and sequence are
passed through; DEFAULT_FEE is the empty amount with gas 300000, and a
transfer without an explicit fee uses DEFAULT_FEE (and sequence
null). -/
theorem transfer_single_send (c : SeeleClient) (w : Wallet)
    (recipient coins : String) (fee : Fee) (sequence : JSValue)
    (hw : c.wallet = some w) :
    DEFAULT_FEE = { amount := [], gas := "300000" }
    ∧ transferCalls c recipient coins fee sequence =
        .ok [{ msgs := [{ from_address := w.address,
                          to_address := recipient, amount := coins }],
               fee := fee, sequence := sequence }]
    ∧ transferCallsDefault c recipient coins =
        transferCalls c recipient coins DEFAULT_FEE .null := by
  refine ⟨rfl, ?_, rfl⟩
  unfold transferCalls
  rw [hw]
  rfl

/-- Witness for the claim C8 theorem at a concrete client and concrete
transfer arguments. -/
theorem transfer_single_send_witness :
    DEFAULT_FEE = { amount := [], gas := "300000" }
    ∧ transferCalls sampleClient "seele1recipient" "100useele"
        DEFAULT_FEE .null =
        .ok [{ msgs := [{ from_address := "seele1sender",
                          to_address := "seele1recipient",
                          amount := "100useele" }],
               fee := DEFAULT_FEE, sequence := .null }]
    ∧ transferCallsDefault sampleClient "seele1recipient" "100useele" =
        transferCalls sampleClient "seele1recipient" "100useele"
          DEFAULT_FEE .null :=
  transfer_single_send sampleClient { address := "seele1sender" }
    "seele1recipient" "100useele" DEFAULT_FEE .null rfl

/-- Claim C10: a successful construct yields a client whose broadcast
mode is sync and whose chainID, wallet and account number override are
all unset; setChainID, setAccountNumber, setWallet and initChain never
change the stored broadcast mode; and every successful sendTx broadcasts
with the broadcast mode stored in the client — so broadcasts use sync
until setBroadcastMode is called. -/
theorem construct_defaults_sync (s : JSValue) (c : SeeleClient)
    (hc : construct s = .ok c) :
    c.broadcastMode = "sync" ∧ c.chainID = .undefined
    ∧ c.wallet = none ∧ c.accNum = none
    ∧ (∀ c2 v c3, setChainID c2 v = .ok c3 →
        c3.broadcastMode = c2.broadcastMode)
    ∧ (∀ c2 v c3, setAccountNumber c2 v = .ok c3 →
        c3.broadcastMode = c2.broadcastMode)
    ∧ (∀ c2 v d c3, setWallet c2 v d = .ok c3 →
        c3.broadcastMode = c2.broadcastMode)
    ∧ (∀ c2 n, (initChain c2 n).1.broadcastMode = c2.broadcastMode)
    ∧ (∀ c2 msgs fee seq loadMeta bc,
        sendTx c2 msgs fee seq loadMeta = .ok bc →
        bc.mode = c2.broadcastMode) := by
  have hfields : c.broadcastMode = "sync" ∧ c.chainID = .undefined
      ∧ c.wallet = none ∧ c.accNum = none := by
    unfold construct at hc
    split at hc
    · exact absurd hc (by simp)
    · cases hc
      exact ⟨rfl, rfl, rfl, rfl⟩
  refine ⟨hfields.1, hfields.2.1, hfields.2.2.1, hfields.2.2.2,
          ?_, ?_, ?_, ?_, ?_⟩
  · intro c2 v c3 h
    unfold setChainID at h
    split at h
    · exact absurd h (by simp)
    · cases h
      rfl
  · intro c2 v c3 h
    unfold setAccountNumber at h
    split at h
    · exact absurd h (by simp)
    · cases h
      rfl
  · intro c2 v d c3 h
    unfold setWallet at h
    split at h
    · exact absurd h (by simp)
    · cases h
      rfl
  · intro c2 n
    unfold initChain
    split <;> rfl
  · intro c2 msgs fee seq loadMeta bc h
    unfold sendTx at h
    split at h
    · exact absurd h (by simp)
    · cases h
      rfl

/-- Witness for the claim C10 theorem: the concrete freshly constructed
client has broadcast mode sync. -/
theorem construct_defaults_sync_witness :
    clientFresh.broadcastMode = "sync" :=
  (construct_defaults_sync (.str "http://localhost:1317") clientFresh
    rfl).1

end SeeleSDK
